import Mathlib

/-!
Verification development for the GenAI-Project contract-analysis service.

The Python sources `src/rag_retriever.py`, `src/main_workflow.py` and
`src/contract_summarizer.py` are shallowly embedded below:

* pure string/list computations become Lean functions on `String` / `List Char`;
* Python exceptions become `Except PyErr` values; a function body with no
  `try/except` simply propagates the error monadically, exactly as the Python
  propagates the exception;
* the external Vertex-AI clients (embedding model, generative model, vector
  search endpoint, legal models) are injected as record fields holding fallible
  functions, mirroring the objects passed around in the source;
* Python `float` values that the program only constructs from decimal literals,
  sums, `min`/`max` and digit parsing are modelled as exact rationals `ℚ`.
-/

namespace GenAI

/-- Model of Python `str.lower()` applied before every keyword test in the
source: lowercase each character.  We work with the character list of the
string. -/
def pyLower (s : String) : List Char :=
  s.data.map Char.toLower

/-- Model of the Python substring test `term in haystack` (on an already
lowercased haystack). -/
def containsTerm (haystack : List Char) (term : String) : Bool :=
  decide (term.data <:+: haystack)

namespace RagRetriever

/-- `INDEX_ID` from `src/rag_retriever.py` line 8. -/
def INDEX_ID : String := "indian-constitution-index"

/-- The six keyword-triggered theme blocks of
`extract_constitutional_themes_from_contract` (`src/rag_retriever.py`
lines 95–111), in source order: each `if any(term in contract_lower ...)`
appends one theme, modelled as the concatenation of conditional singleton
lists. -/
def matchedThemes (contract_lower : List Char) : List String :=
  (if (["employment", "worker", "employee", "labor", "service"].any
      (containsTerm contract_lower)) then ["Right to Work and Employment"] else [])
  ++ (if (["payment", "salary", "wage", "compensation"].any
      (containsTerm contract_lower)) then ["Right to Fair Compensation"] else [])
  ++ (if (["termination", "dismissal", "end"].any
      (containsTerm contract_lower)) then ["Due Process and Natural Justice"] else [])
  ++ (if (["property", "ownership", "asset", "land"].any
      (containsTerm contract_lower)) then ["Right to Property"] else [])
  ++ (if (["trade", "business", "commerce", "profession"].any
      (containsTerm contract_lower)) then ["Freedom of Trade and Commerce"] else [])
  ++ (if (["discrimination", "equal", "equality"].any
      (containsTerm contract_lower)) then ["Right to Equality"] else [])

/-- Model of `extract_constitutional_themes_from_contract`
(`src/rag_retriever.py` lines 90–116): lowercase the text, collect the
keyword-matched themes in priority order, fall back to the single default
theme when nothing matched, and return `themes[:3]`. -/
def extract_constitutional_themes_from_contract (contract_text : String) :
    List String :=
  let contract_lower := pyLower contract_text
  let themes := matchedThemes contract_lower
  let themes :=
    if themes = [] then ["Contract Enforceability under Indian Law"] else themes
  themes.take 3

/-- The seven theme labels that can ever appear in the extractor output: the
six keyword-category themes plus the default theme. -/
def themeVocabulary : List String :=
  ["Right to Work and Employment", "Right to Fair Compensation",
   "Due Process and Natural Justice", "Right to Property",
   "Freedom of Trade and Commerce", "Right to Equality",
   "Contract Enforceability under Indian Law"]

end RagRetriever

/-- Python exceptions, as surfaced by the embedded code.  `msg` is what
`str(e)` renders. -/
inductive PyErr where
  | typeError (msg : String)
  | attributeError (msg : String)
  | indexError (msg : String)
  | serviceError (msg : String)
deriving DecidableEq

/-- `str(e)` on a Python exception: the message text. -/
def PyErr.msg : PyErr → String
  | .typeError m => m
  | .attributeError m => m
  | .indexError m => m
  | .serviceError m => m

namespace RagRetriever

/-- One element of the list returned by `embedding_model.get_embeddings`:
only its `.values` vector is used by the source. -/
structure Embedding where
  values : List Float

/-- One neighbor returned by `vector_search_endpoint.find_neighbors`: the
source reads only `neighbor.instance['content']`, modelled as the field
`content`. -/
structure Neighbor where
  content : String
deriving DecidableEq

/-- The decoding parameters the source passes as `generation_config`
(`src/rag_retriever.py` lines 78–82). -/
structure GenerationConfig where
  max_output_tokens : Nat
  temperature : Float
  top_p : Float

/-- The response object of `generative_model.generate_content`: only `.text`
is used. -/
structure GenResponse where
  text : String

/-- External embedding client: `get_embeddings` may raise (service failure),
modelled as `Except`. -/
structure EmbeddingModel where
  get_embeddings : List String → Except PyErr (List Embedding)

/-- External generative client. -/
structure GenerativeModel where
  generate_content : String → GenerationConfig → Except PyErr GenResponse

/-- External vector-search endpoint: `find_neighbors queries deployed_index_id
num_neighbors` returns one neighbor list per query. -/
structure VectorSearchEndpoint where
  find_neighbors : List (List Float) → String → Nat → Except PyErr (List (List Neighbor))

/-- A record of one external-client invocation made by `get_rag_explanation`,
in call order, so that theorems can speak about which clients were invoked
and with which prompt. -/
inductive RagCall where
  | embedCall (texts : List String)
  | findNeighborsCall (deployed_index_id : String) (num_neighbors : Nat)
  | generateCall (prompt : String)
deriving DecidableEq

/-- The fixed sentinel returned when the index query yields no neighbors
(`src/rag_retriever.py` line 52). -/
def noRelevantArticlesMsg : String :=
  "No relevant articles could be found in the Constitution of India for this topic."

/-- The separator `"\n\n---\n\n".join(retrieved_articles)` uses
(`src/rag_retriever.py` line 57). -/
def contextSeparator : String := "\n\n---\n\n"

/-- The f-string prompt of `src/rag_retriever.py` lines 60–74, with the two
interpolations `context_string` and `theme` made explicit. -/
def ragPrompt (context_string theme : String) : String :=
  "\nYou are an expert on the Constitution of India. Your task is to provide a clear explanation for the following legal theme based on the provided constitutional articles:\n\n**Provided Articles:**\n"
  ++ context_string
  ++ "\n\n**Legal Theme:** " ++ theme
  ++ "\n\nPlease provide a comprehensive analysis that:\n1. Identifies the most relevant constitutional articles\n2. Explains how these articles relate to the legal theme\n3. Provides practical implications for contract law\n4. Highlights any fundamental rights or duties involved\n\n**Analysis:**"

/-- The `generation_config` dictionary of `src/rag_retriever.py` lines 78–82. -/
def ragGenerationConfig : GenerationConfig :=
  { max_output_tokens := 800, temperature := 0.1, top_p := 0.8 }

/-- The dictionary returned by `get_rag_explanation`. -/
structure RagResult where
  explanation : String
  source_articles : List String
deriving DecidableEq

/-- Model of `get_rag_explanation` (`src/rag_retriever.py` lines 26–88).

Returns the result dictionary together with the ordered log of
external-client calls it made.  The source has no `try/except`, so a client
exception — an `Except.error` here — propagates to the caller unchanged.
`[0]` indexing on the client results is Python list indexing and raises
`IndexError` on an empty list. -/
def get_rag_explanation (theme : String) (embedding_model : EmbeddingModel)
    (generative_model : GenerativeModel)
    (vector_search_endpoint : VectorSearchEndpoint) (num_neighbors : Nat := 5) :
    Except PyErr (RagResult × List RagCall) := do
  let embeddings ← embedding_model.get_embeddings [theme]
  let question_embedding ←
    match embeddings.head? with
    | some e => pure e.values
    | none => throw (PyErr.indexError "list index out of range")
  let neighborsPerQuery ←
    vector_search_endpoint.find_neighbors [question_embedding] INDEX_ID num_neighbors
  let neighbors ←
    match neighborsPerQuery.head? with
    | some ns => pure ns
    | none => throw (PyErr.indexError "list index out of range")
  if neighbors.isEmpty then
    return ({ explanation := noRelevantArticlesMsg, source_articles := [] },
      [RagCall.embedCall [theme],
       RagCall.findNeighborsCall INDEX_ID num_neighbors])
  else
    let retrieved_articles := neighbors.map Neighbor.content
    let context_string := String.intercalate contextSeparator retrieved_articles
    let prompt := ragPrompt context_string theme
    let response ← generative_model.generate_content prompt ragGenerationConfig
    return ({ explanation := response.text.trim,
              source_articles := retrieved_articles },
      [RagCall.embedCall [theme],
       RagCall.findNeighborsCall INDEX_ID num_neighbors,
       RagCall.generateCall prompt])

end RagRetriever

namespace MainWorkflow

open RagRetriever

/-- Python `\s` whitespace class (ASCII). -/
def pyIsSpace (c : Char) : Bool :=
  c = ' ' || c = '\t' || c = '\n' || c = '\r' || c = '\x0b' || c = '\x0c'

/-- Python slice `s[:n]` on a string, as characters. -/
def takeChars (n : Nat) (s : String) : String :=
  ⟨s.data.take n⟩

/-- Value of a digit character. -/
def digitVal (c : Char) : Nat := c.toNat - 48

/-- Natural number denoted by a digit run. -/
def digitsToNat (ds : List Char) : Nat :=
  ds.foldl (fun a c => 10 * a + digitVal c) 0

/-- Python `float(s)` on a string matching `[0-9]*\.?[0-9]+`, modelled
exactly as a rational. -/
def parseFloatQ (s : List Char) : ℚ :=
  let intPart := s.takeWhile Char.isDigit
  let rest := s.dropWhile Char.isDigit
  let fracPart :=
    match rest with
    | '.' :: fs => fs.takeWhile Char.isDigit
    | _ => []
  (digitsToNat intPart : ℚ) + (digitsToNat fracPart : ℚ) / ((10 : ℚ) ^ fracPart.length)

/-- Greedy match of the regex fragment `[0-9]*\.?[0-9]+` at the head of `cs`
(the capture group of every score pattern in `_extract_score_from_text`).
Returns the matched characters together with the remainder of the input.
Backtracking is resolved statically: an optional dot is only consumed when at
least one digit follows it, which is exactly what the Python engine ends up
matching. -/
def matchNumber (cs : List Char) : Option (List Char × List Char) :=
  let d1 := cs.takeWhile Char.isDigit
  let r1 := cs.dropWhile Char.isDigit
  if d1.isEmpty then
    match r1 with
    | '.' :: r2 =>
      let d2 := r2.takeWhile Char.isDigit
      if d2.isEmpty then none
      else some ('.' :: d2, r2.dropWhile Char.isDigit)
    | _ => none
  else
    match r1 with
    | '.' :: r2 =>
      let d2 := r2.takeWhile Char.isDigit
      if d2.isEmpty then some (d1, r1)
      else some (d1 ++ '.' :: d2, r2.dropWhile Char.isDigit)
    | _ => some (d1, r1)

/-- Match `lit[:\s]*([0-9]*\.?[0-9]+)` at the head of `cs`, returning the
captured number (regex patterns 1 and 2 of `_extract_score_from_text`).
The gap class `[:\s]` is disjoint from the number characters, so the greedy
gap needs no backtracking. -/
def litThenNum (lit : List Char) (cs : List Char) : Option (List Char) :=
  if lit.isPrefixOf cs then
    let rest := (cs.drop lit.length).dropWhile (fun c => c = ':' || pyIsSpace c)
    (matchNumber rest).map Prod.fst
  else none

/-- Match `([0-9]*\.?[0-9]+)/1\.0` at the head of `cs` (regex pattern 3).
Since `/` can never occur inside the number capture, only the greedy number
needs to be checked. -/
def numSlashOne (cs : List Char) : Option (List Char) :=
  match matchNumber cs with
  | some (num, rest) => if ("/1.0".data).isPrefixOf rest then some num else none
  | none => none

/-- Match `([0-9]*\.?[0-9]+)\s*out of\s*1` at the head of `cs`
(regex pattern 4). -/
def numOutOfOne (cs : List Char) : Option (List Char) :=
  match matchNumber cs with
  | some (num, rest) =>
    let rest2 := rest.dropWhile pyIsSpace
    if ("out of".data).isPrefixOf rest2 then
      let rest3 := (rest2.drop 6).dropWhile pyIsSpace
      match rest3 with
      | '1' :: _ => some num
      | _ => none
    else none
  | none => none

/-- `re.search` semantics for one of the matchers above: try every start
position left to right and return the first capture. -/
def searchCapture (matchAt : List Char → Option (List Char)) :
    List Char → Option (List Char)
  | [] => matchAt []
  | c :: cs =>
    match matchAt (c :: cs) with
    | some r => some r
    | none => searchCapture matchAt cs

/-- Model of `LegalModelVerifier._extract_score_from_text`
(`src/main_workflow.py` lines 251–277): try the four score regexes in order
on the lowercased text (every capture parses as a float, so the `ValueError`
branch of the source is unreachable), clamp to `[0, 1]`; otherwise fall back
to the keyword-sentiment defaults. -/
def extract_score_from_text (text : String) : ℚ :=
  let lower := pyLower text
  let captured :=
    match searchCapture (litThenNum ("compliance score".data)) lower with
    | some num => some num
    | none =>
      match searchCapture (litThenNum ("score".data)) lower with
      | some num => some num
      | none =>
        match searchCapture numSlashOne lower with
        | some num => some num
        | none => searchCapture numOutOfOne lower
  match captured with
  | some num => min (max (parseFloatQ num) 0) 1
  | none =>
    if containsTerm lower "compliant" || containsTerm lower "good" then 0.75
    else if containsTerm lower "issues" || containsTerm lower "problems" then 0.4
    else 0.6

/-- Model of `LegalModelVerifier._extract_issues_from_text`
(`src/main_workflow.py` lines 279–290): keep the stripped lines that contain
one of the issue keywords and are longer than 10 characters, first five. -/
def extract_issues_from_text (text : String) : List String :=
  ((((text.splitOn "\n").map String.trim).filter (fun line =>
    (["issue", "problem", "concern", "violation"].any
      (containsTerm (pyLower line))) && decide (line.length > 10)))).take 5

/-- Model of `LegalModelVerifier._extract_recommendations_from_text`
(`src/main_workflow.py` lines 292–303). -/
def extract_recommendations_from_text (text : String) : List String :=
  ((((text.splitOn "\n").map String.trim).filter (fun line =>
    (["recommend", "suggest", "should", "consider"].any
      (containsTerm (pyLower line))) && decide (line.length > 10)))).take 5

/-- Model of `LegalModelVerifier._extract_legal_issues`
(`src/main_workflow.py` lines 214–231). -/
def extract_legal_issues (text : String) (score : ℚ) : List String :=
  let text_lower := pyLower text
  (if score < 0.5 then ["Low legal compliance detected"] else [])
  ++ (if score < 0.3 then ["Critical legal issues may be present"] else [])
  ++ (if containsTerm text_lower "termination" && !containsTerm text_lower "notice" then
        ["Termination clause lacks proper notice requirements"] else [])
  ++ (if containsTerm text_lower "salary" && !containsTerm text_lower "minimum wage" then
        ["Salary terms should reference minimum wage compliance"] else [])
  ++ (if containsTerm text_lower "confidentiality" && !containsTerm text_lower "duration" then
        ["Confidentiality clause lacks duration specification"] else [])

/-- Model of `LegalModelVerifier._generate_recommendations`
(`src/main_workflow.py` lines 233–249). -/
def generate_recommendations (score : ℚ) : List String :=
  (if score < 0.7 then
     ["Review contract with legal counsel",
      "Ensure compliance with Indian Contract Act 1872"] else [])
  ++ (if score < 0.5 then
        ["Major revisions needed for legal compliance",
         "Add constitutional law compliance clauses"] else [])
  ++ ["Verify alignment with latest labor law amendments"]

/-- The pydantic `LegalVerification` model (`src/main_workflow.py`
lines 68–73); scores are modelled as exact rationals. -/
structure LegalVerification where
  compliance_score : ℚ
  verification_method : String
  confidence : ℚ
  legal_issues : List String
  recommendations : List String
deriving DecidableEq

/-- Model of `LegalModelVerifier._pattern_based_verification`
(`src/main_workflow.py` lines 305–338): sum the matched keyword factors, add
0.2, cap at 1.0, and return the fixed pattern-based verdict. -/
def pattern_based_verification (text : String) : LegalVerification :=
  let text_lower := pyLower text
  let compliance_factors : List ℚ :=
    (if (["party", "parties", "between"].any (containsTerm text_lower)) then
       [0.2] else [])
    ++ (if (["consideration", "payment", "salary", "amount"].any
        (containsTerm text_lower)) then [0.2] else [])
    ++ (if (["term", "duration", "period"].any (containsTerm text_lower)) then
          [0.15] else [])
    ++ (if (["obligation", "duty", "responsibility"].any
        (containsTerm text_lower)) then [0.15] else [])
    ++ (if (["termination", "end", "expiry"].any (containsTerm text_lower)) then
          [0.1] else [])
  let base_score := compliance_factors.sum
  let compliance_score := min (base_score + 0.2) 1
  { compliance_score := compliance_score,
    verification_method := "Pattern-based Analysis",
    confidence := 0.6,
    legal_issues := ["Pattern-based analysis - limited detail available"],
    recommendations :=
      ["Use advanced legal AI models for detailed analysis",
       "Consult legal counsel for comprehensive review"] }

/-- The f-string `legal_prompt` of `src/main_workflow.py` lines 176–188 (the
source keeps the literal indentation of the triple-quoted string; the
interpolation is `contract_text[:2000]`). -/
def legalPrompt (contract_text : String) : String :=
  "\n                Analyze this contract for legal compliance and potential issues:\n                \n                Contract: "
  ++ takeChars 2000 contract_text
  ++ "\n                \n                Provide:\n                1. Compliance score (0.0 to 1.0)\n                2. Specific legal issues found\n                3. Recommendations for improvement\n                4. Constitutional law considerations for Indian contracts\n                \n                Format as structured analysis.\n                "

/-- State of a `LegalModelVerifier` after `_initialize_legal_models`: each
model slot is either absent (`none`, initialization failed or imports
unavailable) or a fallible external call.

* `indian_legal_bert` stands for the tokenizer+BERT+softmax computation of
  lines 147–158, applied to `contract_text[:512]`; its successful outcome is
  the softmax score `float(predictions[0][1])`.
* `vertex_model` stands for `self.vertex_model.predict`, applied to the
  legal prompt; its successful outcome is `response.text`.

In the source the BERT branch runs only when both `self.indian_legal_bert`
and `self.tokenizer` are set, and `_initialize_legal_models` sets or clears
both together, so one `Option` models the pair. -/
structure LegalModelVerifier where
  indian_legal_bert : Option (String → Except PyErr ℚ)
  vertex_model : Option (String → Except PyErr String)

/-- The Vertex-AI branch of `verify_legal_compliance`
(`src/main_workflow.py` lines 171–208) followed by the pattern-based
fallback: on a successful `predict` the verdict is assembled from the
response text; on an exception (or absent model) control falls through to
`_pattern_based_verification`. -/
def vertexOrPattern (v : LegalModelVerifier) (contract_text : String) :
    LegalVerification :=
  match v.vertex_model with
  | some predict =>
    match predict (legalPrompt contract_text) with
    | Except.ok analysis =>
      { compliance_score := extract_score_from_text analysis,
        verification_method := "Vertex AI Legal Analysis",
        confidence := 0.8,
        legal_issues := extract_issues_from_text analysis,
        recommendations := extract_recommendations_from_text analysis }
    | Except.error _ => pattern_based_verification contract_text
  | none => pattern_based_verification contract_text

/-- Model of `LegalModelVerifier.verify_legal_compliance`
(`src/main_workflow.py` lines 139–212): try IndianLegalBERT, then the Vertex
model, each branch catching its own exception and falling through; finally
the pattern-based fallback.  Total — the method itself never raises. -/
def verify_legal_compliance (v : LegalModelVerifier) (contract_text : String) :
    LegalVerification :=
  match v.indian_legal_bert with
  | some bert =>
    match bert (takeChars 512 contract_text) with
    | Except.ok score =>
      { compliance_score := score,
        verification_method := "IndianLegalBERT",
        confidence := score,
        legal_issues := extract_legal_issues contract_text score,
        recommendations := generate_recommendations score }
    | Except.error _ => vertexOrPattern v contract_text
  | none => vertexOrPattern v contract_text

/-- The dictionary returned by `self.summarizer.summarize_contract` as read
by `analyze_contract` (`src/main_workflow.py` lines 402–405): each key is
read with `.get` and a default, so every field is optional.  (Note that
`ContractSummarizer` in `src/contract_summarizer.py` does not actually
define a `summarize_contract` method, so in the running program this call
raises `AttributeError`; the injected function below covers that as the
error case.) -/
structure SummaryResult where
  summary : Option String
  key_terms : Option (List (String × String))
  themes : Option (List String)

/-- Python value held in `results["constitutional_analysis"]`: initialised
to `None`, set to the RAG result dictionary on success or to a plain string
on failure. -/
inductive CAField where
  | pyNone
  | str (s : String)
  | dict (r : RagResult)
deriving DecidableEq

/-- Python value held in `results["legal_verification"]`: `None` initially,
the error dictionary on a caught exception, or the verdict dictionary
`verification_result.dict()` on success. -/
inductive LVField where
  | pyNone
  | errDict
  | verdict (v : LegalVerification)
deriving DecidableEq

/-- The `results` dictionary built by `analyze_contract`
(`src/main_workflow.py` lines 384–396): the three `component_status`
entries are inlined as fields, and `comprehensive_analysis` is `none` while
the key is absent. -/
structure Results where
  summary : Option String
  constitutional_analysis : CAField
  legal_verification : LVField
  key_terms : List (String × String)
  themes : List String
  summarizer_status : String
  legal_verifier_status : String
  rag_status : String
  comprehensive_analysis : Option String
  errors : List String
deriving DecidableEq

/-- The initial `results` dictionary (`src/main_workflow.py` lines 384–396). -/
def initialResults : Results :=
  { summary := none, constitutional_analysis := CAField.pyNone,
    legal_verification := LVField.pyNone, key_terms := [], themes := [],
    summarizer_status := "inactive", legal_verifier_status := "inactive",
    rag_status := "inactive", comprehensive_analysis := none, errors := [] }

/-- The message of the `TypeError` raised by the call
`get_rag_explanation(contract_text)`. -/
def ragArityErrorMsg : String :=
  "get_rag_explanation() missing 3 required positional arguments: embedding_model, generative_model, and vector_search_endpoint"

/-- Python call semantics for `get_rag_explanation(contract_text)`
(`src/main_workflow.py` line 433): `get_rag_explanation`
(`src/rag_retriever.py` line 26) declares four required positional
parameters — `theme`, `embedding_model`, `generative_model`,
`vector_search_endpoint` — before its one defaulted parameter, so a call
supplying a single positional argument raises `TypeError` before the
function body ever runs; no client is constructed or invoked. -/
def call_get_rag_explanation_one_arg (_contract_text : String) :
    Except PyErr (RagResult × List RagCall) :=
  Except.error (PyErr.typeError ragArityErrorMsg)

/-- Workflow component state after `_initialize_components`
(`src/main_workflow.py` lines 352–378): each component is absent when its
initialization failed.  The collaborators are injected as fallible calls:
`summarizer` stands for `self.summarizer.summarize_contract` and
`legal_verifier` for `self.legal_verifier.verify_legal_compliance` (any
Python call may raise at run time; `verify_legal_compliance` as modelled
above is total, but the workflow guards the call with its own
`try/except` regardless, and `summarize_contract` does not even exist on
`ContractSummarizer`). -/
structure ContractAnalysisWorkflow where
  summarizer : Option (String → Except PyErr SummaryResult)
  legal_verifier : Option (String → Except PyErr LegalVerification)

/-- Step 1 of `analyze_contract` (`src/main_workflow.py` lines 398–414):
contract summarization. -/
def step_summarize (wf : ContractAnalysisWorkflow) (contract_text : String)
    (r : Results) : Results :=
  match wf.summarizer with
  | some summarize =>
    match summarize contract_text with
    | Except.ok sr =>
      { r with summary := some (sr.summary.getD "Summary not available"),
               key_terms := sr.key_terms.getD [],
               themes := sr.themes.getD [],
               summarizer_status := "active" }
    | Except.error e =>
      { r with errors := r.errors ++ ["Summarization failed: " ++ e.msg],
               summary := some "Contract summarization temporarily unavailable" }
  | none => { r with summary := some "Contract summarizer not available" }

/-- Step 2 of `analyze_contract` (`src/main_workflow.py` lines 416–428):
legal verification. -/
def step_legal (wf : ContractAnalysisWorkflow) (contract_text : String)
    (r : Results) : Results :=
  match wf.legal_verifier with
  | some verify =>
    match verify contract_text with
    | Except.ok v =>
      { r with legal_verification := LVField.verdict v,
               legal_verifier_status := "active" }
    | Except.error e =>
      { r with errors := r.errors ++ ["Legal verification failed: " ++ e.msg],
               legal_verification := LVField.errDict }
  | none => r

/-- Step 3 of `analyze_contract` (`src/main_workflow.py` lines 430–441):
constitutional analysis via the (mis-arity) RAG call. -/
def step_rag (contract_text : String) (r : Results) : Results :=
  match call_get_rag_explanation_one_arg contract_text with
  | Except.ok (res, _) =>
    { r with constitutional_analysis := CAField.dict res,
             rag_status := "active" }
  | Except.error e =>
    { r with errors := r.errors ++ ["Constitutional analysis failed: " ++ e.msg],
             constitutional_analysis :=
               CAField.str "Constitutional analysis temporarily unavailable" }

/-- Python truthiness of `results["summary"]` (`None` and the empty string
are falsy). -/
def truthyStr : Option String → Bool
  | none => false
  | some s => !s.isEmpty

/-- Python truthiness of `results["constitutional_analysis"]` (a returned
RAG dictionary always has two keys, hence is truthy). -/
def truthyCA : CAField → Bool
  | CAField.pyNone => false
  | CAField.str s => !s.isEmpty
  | CAField.dict _ => true

/-- `str()` of the `constitutional_analysis` value as interpolated into the
comprehensive-summary f-string.  (The dictionary case renders via Python
dict repr; it is abbreviated here and unreachable in the modelled program,
where the RAG call always raises `TypeError`.) -/
def caToString : CAField → String
  | CAField.pyNone => "None"
  | CAField.str s => s
  | CAField.dict r =>
    "dict(explanation=" ++ r.explanation ++ ", source_articles=" ++
      String.intercalate ", " r.source_articles ++ ")"

/-- `results.get('legal_verification', {}).get('verification_method',
'Not available')` — on the initial value `None`, `.get` on `NoneType`
raises `AttributeError`. -/
def lvGetMethod : LVField → Except PyErr String
  | LVField.pyNone =>
    Except.error (PyErr.attributeError "NoneType object has no attribute get")
  | LVField.errDict => Except.ok "Not available"
  | LVField.verdict v => Except.ok v.verification_method

/-- `results.get('legal_verification', {}).get('compliance_score', 'N/A')`,
rendered into the f-string (the rational stands in for the Python float
rendering). -/
def lvGetScoreStr : LVField → Except PyErr String
  | LVField.pyNone =>
    Except.error (PyErr.attributeError "NoneType object has no attribute get")
  | LVField.errDict => Except.ok "N/A"
  | LVField.verdict v => Except.ok (toString v.compliance_score)

/-- The key-terms interpolation of the comprehensive f-string. -/
def keyTermsStr (kt : List (String × String)) : String :=
  if kt.isEmpty then "None extracted"
  else String.intercalate ", " (kt.map (fun kv => kv.1 ++ ": " ++ kv.2))

/-- The themes interpolation of the comprehensive f-string. -/
def themesStr (ts : List String) : String :=
  if ts.isEmpty then "None identified"
  else String.intercalate ", " ts

/-- The body of step 4 of `analyze_contract` (`src/main_workflow.py`
lines 444–465): when summary and constitutional analysis are truthy,
assemble the comprehensive f-string (whose legal-verification
interpolations may raise `AttributeError`, caught by the surrounding
`try/except`); otherwise the partial-analysis sentinel. -/
def comprehensive_body (r : Results) : Except PyErr String :=
  if truthyStr r.summary && truthyCA r.constitutional_analysis then do
    let method ← lvGetMethod r.legal_verification
    let score ← lvGetScoreStr r.legal_verification
    Except.ok (String.trim
      ("\nCONTRACT ANALYSIS SUMMARY:\n" ++ r.summary.getD "" ++
       "\n\nCONSTITUTIONAL LAW INSIGHTS:\n" ++
       caToString r.constitutional_analysis ++
       "\n\nLEGAL VERIFICATION:\n" ++ method ++ " - Score: " ++ score ++
       "\n\nKEY TERMS IDENTIFIED:\n" ++ keyTermsStr r.key_terms ++
       "\n\nANALYSIS THEMES:\n" ++ themesStr r.themes ++ "\n"))
  else
    Except.ok "Partial analysis completed - some components unavailable"

/-- Step 4 of `analyze_contract` with its `try/except`: an exception leaves
`comprehensive_analysis` unset and appends to `errors`. -/
def step_comprehensive (r : Results) : Results :=
  match comprehensive_body r with
  | Except.ok s => { r with comprehensive_analysis := some s }
  | Except.error e =>
    { r with errors :=
        r.errors ++ ["Comprehensive analysis generation failed: " ++ e.msg] }

/-- Model of `ContractAnalysisWorkflow.analyze_contract`
(`src/main_workflow.py` lines 380–472): the four steps applied in sequence
to the initial results dictionary.  Every step guards its fallible work with
`try/except`, so the function is total: it always returns a results
dictionary. -/
def analyze_contract (wf : ContractAnalysisWorkflow) (contract_text : String) :
    Results :=
  step_comprehensive
    (step_rag contract_text
      (step_legal wf contract_text
        (step_summarize wf contract_text initialResults)))

end MainWorkflow

namespace RagRetriever

/-- All 22 keywords of the six theme categories of
`extract_constitutional_themes_from_contract`, in source order. -/
def allCategoryKeywords : List String :=
  ["employment", "worker", "employee", "labor", "service",
   "payment", "salary", "wage", "compensation",
   "termination", "dismissal", "end",
   "property", "ownership", "asset", "land",
   "trade", "business", "commerce", "profession",
   "discrimination", "equal", "equality"]

/-- Test fixture: an embedding client whose service call raises. -/
def failingEmbeddingModel : EmbeddingModel :=
  ⟨fun _ => Except.error (PyErr.serviceError "embedding service unreachable")⟩

/-- Test fixture: an embedding client returning one embedding. -/
def sampleEmbeddingModel : EmbeddingModel :=
  ⟨fun _ => Except.ok [⟨[]⟩]⟩

/-- Test fixture: a generative client returning fixed text. -/
def sampleGenerativeModel : GenerativeModel :=
  ⟨fun _ _ => Except.ok ⟨" Grounded explanation. "⟩⟩

/-- Test fixture: a vector-search endpoint returning two neighbors. -/
def sampleEndpoint : VectorSearchEndpoint :=
  ⟨fun _ _ _ => Except.ok
    [[⟨"Article 14: Equality before law."⟩,
      ⟨"Article 15: Prohibition of discrimination."⟩]]⟩

/-- Test fixture: a vector-search endpoint returning zero neighbors. -/
def emptyEndpoint : VectorSearchEndpoint :=
  ⟨fun _ _ _ => Except.ok [[]]⟩

end RagRetriever

namespace MainWorkflow

/-- Test fixture: a summarizer call that raises. -/
def failingSummarizer : String → Except PyErr SummaryResult :=
  fun _ => Except.error (PyErr.serviceError "summarizer backend down")

/-- Test fixture: a legal-verification call that raises. -/
def failingVerifier : String → Except PyErr LegalVerification :=
  fun _ => Except.error (PyErr.serviceError "verifier backend down")

/-- Test fixture: a workflow whose summarizer and verifier calls both raise. -/
def failingWorkflow : ContractAnalysisWorkflow :=
  { summarizer := some failingSummarizer, legal_verifier := some failingVerifier }

/-- Test fixture: an IndianLegalBERT scoring call that raises. -/
def failingBert : String → Except PyErr ℚ :=
  fun _ => Except.error (PyErr.serviceError "bert unavailable")

/-- Test fixture: a Vertex predict call that raises. -/
def failingVertexModel : String → Except PyErr String :=
  fun _ => Except.error (PyErr.serviceError "vertex unavailable")

/-- Test fixture: a verifier whose two model calls both raise. -/
def failingLegalVerifier : LegalModelVerifier :=
  ⟨some failingBert, some failingVertexModel⟩

end MainWorkflow


namespace RagRetriever

/-! ### Theme extractor -/

/-- `extract_constitutional_themes_from_contract` with its local bindings
unfolded. -/
theorem extract_eq (t : String) :
    extract_constitutional_themes_from_contract t =
      (if matchedThemes (pyLower t) = []
       then ["Contract Enforceability under Indian Law"]
       else matchedThemes (pyLower t)).take 3 := rfl

theorem cond_singleton_sublist {α : Type} (c : Prop) [Decidable c] (x : α) :
    List.Sublist (if c then [x] else []) [x] := by
  split <;> simp

/-- Every matched-theme list is a sublist of the six category themes in
priority order. -/
theorem matchedThemes_sublist (lower : List Char) :
    List.Sublist (matchedThemes lower)
      ["Right to Work and Employment", "Right to Fair Compensation",
       "Due Process and Natural Justice", "Right to Property",
       "Freedom of Trade and Commerce", "Right to Equality"] := by
  unfold matchedThemes
  exact ((((((cond_singleton_sublist _ _).append
    (cond_singleton_sublist _ _)).append
    (cond_singleton_sublist _ _)).append
    (cond_singleton_sublist _ _)).append
    (cond_singleton_sublist _ _)).append
    (cond_singleton_sublist _ _))

/-- C7: a contract text whose lowercasing contains "employee", "salary" and
"termination" triggers the first three keyword categories, so the extractor
returns exactly the three corresponding themes, capped at 3 in priority
order, regardless of any further keyword matches. -/
theorem extract_themes_employee_salary_termination (contract_text : String)
    (h1 : containsTerm (pyLower contract_text) "employee" = true)
    (h2 : containsTerm (pyLower contract_text) "salary" = true)
    (h3 : containsTerm (pyLower contract_text) "termination" = true) :
    extract_constitutional_themes_from_contract contract_text =
      ["Right to Work and Employment", "Right to Fair Compensation",
       "Due Process and Natural Justice"] := by
  have c1 : (["employment", "worker", "employee", "labor", "service"].any
      (containsTerm (pyLower contract_text))) = true :=
    List.any_eq_true.mpr ⟨"employee", by simp, h1⟩
  have c2 : (["payment", "salary", "wage", "compensation"].any
      (containsTerm (pyLower contract_text))) = true :=
    List.any_eq_true.mpr ⟨"salary", by simp, h2⟩
  have c3 : (["termination", "dismissal", "end"].any
      (containsTerm (pyLower contract_text))) = true :=
    List.any_eq_true.mpr ⟨"termination", by simp, h3⟩
  obtain ⟨rest, hm⟩ : ∃ rest, matchedThemes (pyLower contract_text) =
      "Right to Work and Employment" :: "Right to Fair Compensation" ::
      "Due Process and Natural Justice" :: rest := by
    unfold matchedThemes
    rw [c1, c2, c3]
    exact ⟨_, rfl⟩
  rw [extract_eq, hm]
  rfl

/-- Witness for the C7 theorem at a concrete contract text. -/
theorem extract_themes_employee_salary_termination_witness :
    containsTerm (pyLower "The EMPLOYEE salary and termination terms.")
      "employee" = true ∧
    containsTerm (pyLower "The EMPLOYEE salary and termination terms.")
      "salary" = true ∧
    containsTerm (pyLower "The EMPLOYEE salary and termination terms.")
      "termination" = true ∧
    extract_constitutional_themes_from_contract
      "The EMPLOYEE salary and termination terms." =
      ["Right to Work and Employment", "Right to Fair Compensation",
       "Due Process and Natural Justice"] :=
  ⟨by decide, by decide, by decide,
   extract_themes_employee_salary_termination
     "The EMPLOYEE salary and termination terms."
     (by decide) (by decide) (by decide)⟩

/-- C8: when no keyword of any of the six categories occurs in the
lowercased text, the extractor returns exactly the default theme list. -/
theorem extract_themes_no_keyword_default (contract_text : String)
    (h : ∀ term ∈ allCategoryKeywords,
      containsTerm (pyLower contract_text) term = false) :
    extract_constitutional_themes_from_contract contract_text =
      ["Contract Enforceability under Indian Law"] := by
  have hm : matchedThemes (pyLower contract_text) = [] := by
    unfold matchedThemes
    rw [List.any_eq_false.mpr fun t ht =>
          by simp [h t (by fin_cases ht <;> decide)],
        List.any_eq_false.mpr fun t ht =>
          by simp [h t (by fin_cases ht <;> decide)],
        List.any_eq_false.mpr fun t ht =>
          by simp [h t (by fin_cases ht <;> decide)],
        List.any_eq_false.mpr fun t ht =>
          by simp [h t (by fin_cases ht <;> decide)],
        List.any_eq_false.mpr fun t ht =>
          by simp [h t (by fin_cases ht <;> decide)],
        List.any_eq_false.mpr fun t ht =>
          by simp [h t (by fin_cases ht <;> decide)]]
    simp
  rw [extract_eq, hm]
  rfl

/-- Witness for the C8 theorem at a concrete keyword-free text. -/
theorem extract_themes_no_keyword_default_witness :
    (∀ term ∈ allCategoryKeywords,
      containsTerm (pyLower "xyz qqj") term = false) ∧
    extract_constitutional_themes_from_contract "xyz qqj" =
      ["Contract Enforceability under Indian Law"] :=
  ⟨by decide, extract_themes_no_keyword_default "xyz qqj" (by decide)⟩

/-- C9: for every contract text the extractor returns between 1 and 3
themes. -/
theorem extract_themes_length_bounds (contract_text : String) :
    1 ≤ (extract_constitutional_themes_from_contract contract_text).length ∧
    (extract_constitutional_themes_from_contract contract_text).length ≤ 3 := by
  rw [extract_eq]
  constructor
  · by_cases h : matchedThemes (pyLower contract_text) = []
    · rw [if_pos h]; decide
    · rw [if_neg h]
      have hp : 0 < (matchedThemes (pyLower contract_text)).length :=
        List.length_pos.mpr h
      rw [List.length_take]
      omega
  · by_cases h : matchedThemes (pyLower contract_text) = []
    · rw [if_pos h]; decide
    · rw [if_neg h]
      rw [List.length_take]
      omega

/-- C10: the extractor output depends only on the lowercased text (so any
two texts equal after lowercasing give the same theme list), it never
contains duplicates, and every returned label belongs to the fixed
seven-label vocabulary. -/
theorem extract_themes_lower_invariant_nodup_vocab :
    (∀ t1 t2 : String, pyLower t1 = pyLower t2 →
      extract_constitutional_themes_from_contract t1 =
        extract_constitutional_themes_from_contract t2) ∧
    (∀ t : String, (extract_constitutional_themes_from_contract t).Nodup) ∧
    (∀ t : String, ∀ x ∈ extract_constitutional_themes_from_contract t,
      x ∈ themeVocabulary) := by
  refine ⟨?_, ?_, ?_⟩
  · intro t1 t2 h
    rw [extract_eq, extract_eq, h]
  · intro t
    rw [extract_eq]
    by_cases h : matchedThemes (pyLower t) = []
    · rw [if_pos h]; decide
    · rw [if_neg h]
      exact List.Nodup.sublist (List.take_sublist 3 _)
        (List.Nodup.sublist (matchedThemes_sublist (pyLower t)) (by decide))
  · intro t x hx
    rw [extract_eq] at hx
    by_cases h : matchedThemes (pyLower t) = []
    · rw [if_pos h] at hx
      simp at hx
      rw [hx]
      decide
    · rw [if_neg h] at hx
      have hx2 : x ∈ matchedThemes (pyLower t) := List.take_subset 3 _ hx
      have hx3 := (matchedThemes_sublist (pyLower t)).subset hx2
      exact List.mem_append_left _ hx3

/-- Witness for the C10 theorem at concrete inputs. -/
theorem extract_themes_lower_invariant_witness :
    pyLower "EMPLOYEE Contract" = pyLower "employee contract" ∧
    extract_constitutional_themes_from_contract "EMPLOYEE Contract" =
      extract_constitutional_themes_from_contract "employee contract" :=
  ⟨by decide,
   extract_themes_lower_invariant_nodup_vocab.1
     "EMPLOYEE Contract" "employee contract" (by decide)⟩

end RagRetriever

namespace RagRetriever

/-! ### RAG retrieval -/

/-- C1: whenever the index query returns a non-empty neighbor list, the
result dictionary's `source_articles` is exactly the list of the neighbors'
`content` fields, in order, and the prompt passed to the generative client
embeds the concatenation of that very same list — no substitution or
mutation in between. -/
theorem get_rag_explanation_sources_roundtrip
    (theme : String) (em : EmbeddingModel) (gm : GenerativeModel)
    (vse : VectorSearchEndpoint) (k : Nat) (emb : Embedding)
    (rest : List Embedding) (n : Neighbor) (ns : List Neighbor)
    (nrest : List (List Neighbor)) (resp : GenResponse)
    (hemb : em.get_embeddings [theme] = Except.ok (emb :: rest))
    (hfind : vse.find_neighbors [emb.values] INDEX_ID k =
      Except.ok ((n :: ns) :: nrest))
    (hgen : gm.generate_content
      (ragPrompt (String.intercalate contextSeparator
        ((n :: ns).map Neighbor.content)) theme)
      ragGenerationConfig = Except.ok resp) :
    get_rag_explanation theme em gm vse k =
      Except.ok
        ({ explanation := resp.text.trim,
           source_articles := (n :: ns).map Neighbor.content },
         [RagCall.embedCall [theme], RagCall.findNeighborsCall INDEX_ID k,
          RagCall.generateCall (ragPrompt (String.intercalate contextSeparator
            ((n :: ns).map Neighbor.content)) theme)]) := by
  unfold get_rag_explanation
  rw [hemb]
  simp only [bind, Except.bind, List.head?_cons, pure, Except.pure]
  rw [hfind]
  simp only [List.head?_cons, List.isEmpty_cons]
  rw [hgen]
  rfl

/-- Witness for the C1 theorem on concrete clients returning two
neighbors. -/
theorem get_rag_explanation_sources_roundtrip_witness :
    sampleEmbeddingModel.get_embeddings ["Right to Equality"] =
      Except.ok [⟨[]⟩] ∧
    sampleEndpoint.find_neighbors [(⟨[]⟩ : Embedding).values] INDEX_ID 5 =
      Except.ok [[⟨"Article 14: Equality before law."⟩,
                  ⟨"Article 15: Prohibition of discrimination."⟩]] ∧
    get_rag_explanation "Right to Equality" sampleEmbeddingModel
      sampleGenerativeModel sampleEndpoint 5 =
      Except.ok
        ({ explanation := (" Grounded explanation. " : String).trim,
           source_articles :=
             ["Article 14: Equality before law.",
              "Article 15: Prohibition of discrimination."] },
         [RagCall.embedCall ["Right to Equality"],
          RagCall.findNeighborsCall INDEX_ID 5,
          RagCall.generateCall (ragPrompt (String.intercalate contextSeparator
            ["Article 14: Equality before law.",
             "Article 15: Prohibition of discrimination."]) "Right to Equality")]) :=
  ⟨rfl, rfl,
   get_rag_explanation_sources_roundtrip "Right to Equality"
     sampleEmbeddingModel sampleGenerativeModel sampleEndpoint 5
     ⟨[]⟩ [] ⟨"Article 14: Equality before law."⟩
     [⟨"Article 15: Prohibition of discrimination."⟩] [] ⟨" Grounded explanation. "⟩
     rfl rfl rfl⟩

/-- C2: when the index query returns zero neighbors, `get_rag_explanation`
short-circuits to the fixed no-relevant-articles sentinel with an empty
source list, for every generative client alike, and its call log contains
no generation call — the generative client is not invoked. -/
theorem get_rag_explanation_no_neighbors_short_circuit
    (theme : String) (em : EmbeddingModel) (vse : VectorSearchEndpoint)
    (k : Nat) (emb : Embedding) (rest : List Embedding)
    (nrest : List (List Neighbor))
    (hemb : em.get_embeddings [theme] = Except.ok (emb :: rest))
    (hfind : vse.find_neighbors [emb.values] INDEX_ID k =
      Except.ok ([] :: nrest)) :
    ∀ gm : GenerativeModel,
      get_rag_explanation theme em gm vse k =
        Except.ok
          ({ explanation := noRelevantArticlesMsg, source_articles := [] },
           [RagCall.embedCall [theme],
            RagCall.findNeighborsCall INDEX_ID k]) ∧
      ∀ p, RagCall.generateCall p ∉
        [RagCall.embedCall [theme], RagCall.findNeighborsCall INDEX_ID k] := by
  intro gm
  constructor
  · unfold get_rag_explanation
    rw [hemb]
    simp only [bind, Except.bind, List.head?_cons, pure, Except.pure]
    rw [hfind]
    rfl
  · intro p
    simp

/-- Witness for the C2 theorem on a concrete empty-result endpoint. -/
theorem get_rag_explanation_no_neighbors_witness :
    sampleEmbeddingModel.get_embeddings ["Right to Privacy"] =
      Except.ok [⟨[]⟩] ∧
    emptyEndpoint.find_neighbors [(⟨[]⟩ : Embedding).values] INDEX_ID 5 =
      Except.ok [[]] ∧
    get_rag_explanation "Right to Privacy" sampleEmbeddingModel
      sampleGenerativeModel emptyEndpoint 5 =
      Except.ok
        ({ explanation := noRelevantArticlesMsg, source_articles := [] },
         [RagCall.embedCall ["Right to Privacy"],
          RagCall.findNeighborsCall INDEX_ID 5]) :=
  ⟨rfl, rfl,
   (get_rag_explanation_no_neighbors_short_circuit "Right to Privacy"
     sampleEmbeddingModel emptyEndpoint 5 ⟨[]⟩ [] [] rfl rfl
     sampleGenerativeModel).1⟩

/-- C3 counterexample: `get_rag_explanation` has no exception handler, so a
failing embedding client makes the whole call raise to its caller — it does
not return a per-theme structured-error result, contradicting the claim
that failures are "never raised to the caller". -/
theorem get_rag_explanation_raises_to_caller :
    get_rag_explanation "Right to Equality" failingEmbeddingModel
      sampleGenerativeModel sampleEndpoint 5 =
      Except.error (PyErr.serviceError "embedding service unreachable") := rfl

end RagRetriever

namespace MainWorkflow

open RagRetriever

/-! ### Workflow step lemmas -/

theorem step_rag_eq (contract_text : String) (r : Results) :
    step_rag contract_text r =
      { r with
        constitutional_analysis :=
          CAField.str "Constitutional analysis temporarily unavailable",
        errors := r.errors ++
          ["Constitutional analysis failed: " ++ ragArityErrorMsg] } := rfl

theorem step_rag_errors_mono (contract_text : String) (r : Results) :
    ∀ x ∈ r.errors, x ∈ (step_rag contract_text r).errors := by
  rw [step_rag_eq]
  exact fun x hx => List.mem_append_left _ hx

theorem step_comprehensive_preserves (r : Results) :
    (step_comprehensive r).constitutional_analysis = r.constitutional_analysis ∧
    (step_comprehensive r).summary = r.summary ∧
    (step_comprehensive r).legal_verification = r.legal_verification := by
  unfold step_comprehensive
  cases comprehensive_body r <;> exact ⟨rfl, rfl, rfl⟩

theorem step_comprehensive_errors_mono (r : Results) :
    ∀ x ∈ r.errors, x ∈ (step_comprehensive r).errors := by
  unfold step_comprehensive
  cases comprehensive_body r with
  | ok s => exact fun x hx => hx
  | error e => exact fun x hx => List.mem_append_left _ hx

theorem step_legal_none (wf : ContractAnalysisWorkflow) (text : String)
    (r : Results) (h : wf.legal_verifier = none) :
    step_legal wf text r = r := by
  unfold step_legal
  rw [h]

theorem step_legal_ok (wf : ContractAnalysisWorkflow) (text : String)
    (r : Results) (g : String → Except PyErr LegalVerification)
    (v : LegalVerification)
    (hg : wf.legal_verifier = some g) (he : g text = Except.ok v) :
    step_legal wf text r =
      { r with
        legal_verification := LVField.verdict v,
        legal_verifier_status := "active" } := by
  unfold step_legal
  simp only [hg, he]

theorem step_legal_fail (wf : ContractAnalysisWorkflow) (text : String)
    (r : Results) (g : String → Except PyErr LegalVerification) (e : PyErr)
    (hg : wf.legal_verifier = some g) (he : g text = Except.error e) :
    step_legal wf text r =
      { r with
        legal_verification := LVField.errDict,
        errors := r.errors ++ ["Legal verification failed: " ++ e.msg] } := by
  unfold step_legal
  simp only [hg, he]

theorem step_legal_preserves (wf : ContractAnalysisWorkflow) (text : String)
    (r : Results) :
    (step_legal wf text r).summary = r.summary ∧
    (step_legal wf text r).constitutional_analysis =
      r.constitutional_analysis ∧
    ∀ x ∈ r.errors, x ∈ (step_legal wf text r).errors := by
  cases hg : wf.legal_verifier with
  | none =>
    rw [step_legal_none wf text r hg]
    exact ⟨rfl, rfl, fun x hx => hx⟩
  | some g =>
    cases he : g text with
    | ok v =>
      rw [step_legal_ok wf text r g v hg he]
      exact ⟨rfl, rfl, fun x hx => hx⟩
    | error e =>
      rw [step_legal_fail wf text r g e hg he]
      exact ⟨rfl, rfl, fun x hx => List.mem_append_left _ hx⟩

theorem step_summarize_none (wf : ContractAnalysisWorkflow) (text : String)
    (r : Results) (h : wf.summarizer = none) :
    step_summarize wf text r =
      { r with summary := some "Contract summarizer not available" } := by
  unfold step_summarize
  rw [h]

theorem step_summarize_ok (wf : ContractAnalysisWorkflow) (text : String)
    (r : Results) (f : String → Except PyErr SummaryResult)
    (sr : SummaryResult)
    (hf : wf.summarizer = some f) (he : f text = Except.ok sr) :
    step_summarize wf text r =
      { r with
        summary := some (sr.summary.getD "Summary not available"),
        key_terms := sr.key_terms.getD [],
        themes := sr.themes.getD [],
        summarizer_status := "active" } := by
  unfold step_summarize
  simp only [hf, he]

theorem step_summarize_fail (wf : ContractAnalysisWorkflow) (text : String)
    (r : Results) (f : String → Except PyErr SummaryResult) (e : PyErr)
    (hf : wf.summarizer = some f) (he : f text = Except.error e) :
    step_summarize wf text r =
      { r with
        errors := r.errors ++ ["Summarization failed: " ++ e.msg],
        summary := some "Contract summarization temporarily unavailable" } := by
  unfold step_summarize
  simp only [hf, he]

theorem step_summarize_preserves_lv (wf : ContractAnalysisWorkflow)
    (text : String) (r : Results) :
    (step_summarize wf text r).legal_verification = r.legal_verification := by
  cases hf : wf.summarizer with
  | none =>
    rw [step_summarize_none wf text r hf]
  | some f =>
    cases he : f text with
    | ok sr =>
      rw [step_summarize_ok wf text r f sr hf he]
    | error e =>
      rw [step_summarize_fail wf text r f e hf he]

theorem step_summarize_summary_isSome (wf : ContractAnalysisWorkflow)
    (text : String) (r : Results) :
    ((step_summarize wf text r).summary).isSome = true := by
  cases hf : wf.summarizer with
  | none =>
    rw [step_summarize_none wf text r hf]
    rfl
  | some f =>
    cases he : f text with
    | ok sr =>
      rw [step_summarize_ok wf text r f sr hf he]
      rfl
    | error e =>
      rw [step_summarize_fail wf text r f e hf he]
      rfl

/-! ### Workflow theorems -/

/-- C4: `analyze_contract` invokes `get_rag_explanation(contract_text)` with
one positional argument against a four-required-parameter signature, so the
constitutional-analysis branch always raises `TypeError`; the branch handler
therefore always sets the fixed unavailable sentinel and appends the error
message, for every workflow state and contract text. -/
theorem analyze_contract_constitutional_unavailable
    (wf : ContractAnalysisWorkflow) (contract_text : String) :
    (analyze_contract wf contract_text).constitutional_analysis =
      CAField.str "Constitutional analysis temporarily unavailable" ∧
    ("Constitutional analysis failed: " ++ ragArityErrorMsg) ∈
      (analyze_contract wf contract_text).errors := by
  unfold analyze_contract
  rw [step_rag_eq]
  constructor
  · rw [(step_comprehensive_preserves _).1]
  · exact step_comprehensive_errors_mono _ _
      (List.mem_append_right _ (by simp))

/-- C3 (amended): client failures inside `get_rag_explanation` are raised to
its caller — the function has no handler — for each of the three external
calls; it is the per-step `try/except` of `analyze_contract` that catches
the exception escaping the constitutional-analysis step, records it in the
report's `errors` list, and lets the pipeline run to completion. -/
theorem get_rag_explanation_error_propagation :
    (∀ (theme : String) (em : EmbeddingModel) (gm : GenerativeModel)
       (vse : VectorSearchEndpoint) (k : Nat) (e : PyErr),
       em.get_embeddings [theme] = Except.error e →
       get_rag_explanation theme em gm vse k = Except.error e) ∧
    (∀ (theme : String) (em : EmbeddingModel) (gm : GenerativeModel)
       (vse : VectorSearchEndpoint) (k : Nat) (emb : Embedding)
       (rest : List Embedding) (e : PyErr),
       em.get_embeddings [theme] = Except.ok (emb :: rest) →
       vse.find_neighbors [emb.values] INDEX_ID k = Except.error e →
       get_rag_explanation theme em gm vse k = Except.error e) ∧
    (∀ (theme : String) (em : EmbeddingModel) (gm : GenerativeModel)
       (vse : VectorSearchEndpoint) (k : Nat) (emb : Embedding)
       (rest : List Embedding) (n : Neighbor) (ns : List Neighbor)
       (nrest : List (List Neighbor)) (e : PyErr),
       em.get_embeddings [theme] = Except.ok (emb :: rest) →
       vse.find_neighbors [emb.values] INDEX_ID k =
         Except.ok ((n :: ns) :: nrest) →
       gm.generate_content (ragPrompt (String.intercalate contextSeparator
         ((n :: ns).map Neighbor.content)) theme) ragGenerationConfig =
         Except.error e →
       get_rag_explanation theme em gm vse k = Except.error e) ∧
    (∀ (wf : ContractAnalysisWorkflow) (contract_text : String),
       ("Constitutional analysis failed: " ++ ragArityErrorMsg) ∈
         (analyze_contract wf contract_text).errors) := by
  refine ⟨?_, ?_, ?_, ?_⟩
  · intro theme em gm vse k e he
    unfold get_rag_explanation
    rw [he]
    rfl
  · intro theme em gm vse k emb rest e hemb he
    unfold get_rag_explanation
    rw [hemb]
    simp only [bind, Except.bind, List.head?_cons, pure, Except.pure]
    rw [he]
  · intro theme em gm vse k emb rest n ns nrest e hemb hfind he
    unfold get_rag_explanation
    rw [hemb]
    simp only [bind, Except.bind, List.head?_cons, pure, Except.pure]
    rw [hfind]
    simp only [List.head?_cons, List.isEmpty_cons]
    rw [he]
    all_goals rfl
  · intro wf contract_text
    unfold analyze_contract
    rw [step_rag_eq]
    exact step_comprehensive_errors_mono _ _
      (List.mem_append_right _ (by simp))

/-- Witness for the C3 amended theorem on a concrete failing embedding
client. -/
theorem get_rag_explanation_error_propagation_witness :
    failingEmbeddingModel.get_embeddings ["Right to Equality"] =
      Except.error (PyErr.serviceError "embedding service unreachable") ∧
    get_rag_explanation "Right to Equality" failingEmbeddingModel
      sampleGenerativeModel sampleEndpoint 5 =
      Except.error (PyErr.serviceError "embedding service unreachable") :=
  ⟨rfl,
   get_rag_explanation_error_propagation.1 "Right to Equality"
     failingEmbeddingModel sampleGenerativeModel sampleEndpoint 5
     (PyErr.serviceError "embedding service unreachable") rfl⟩

/-- C5: `analyze_contract` always returns a full results dictionary.  A
summarization failure is caught, recorded in `errors` and replaced by the
summary fallback; a legal-verification failure is caught, recorded and
reflected as the error dictionary; the legal-verification outcome does not
depend on the summarizer's fate; and in every run the summary field is
populated and the (always failing) constitutional step is recorded without
aborting the pipeline. -/
theorem analyze_contract_partial_failure_tolerant :
    (∀ (wf : ContractAnalysisWorkflow) (text : String)
       (f : String → Except PyErr SummaryResult) (e : PyErr),
       wf.summarizer = some f → f text = Except.error e →
       (analyze_contract wf text).summary =
         some "Contract summarization temporarily unavailable" ∧
       ("Summarization failed: " ++ e.msg) ∈
         (analyze_contract wf text).errors) ∧
    (∀ (wf : ContractAnalysisWorkflow) (text : String)
       (g : String → Except PyErr LegalVerification) (e : PyErr),
       wf.legal_verifier = some g → g text = Except.error e →
       (analyze_contract wf text).legal_verification = LVField.errDict ∧
       ("Legal verification failed: " ++ e.msg) ∈
         (analyze_contract wf text).errors) ∧
    (∀ (text : String) (s1 s2 : Option (String → Except PyErr SummaryResult))
       (lv : Option (String → Except PyErr LegalVerification)),
       (analyze_contract ⟨s1, lv⟩ text).legal_verification =
         (analyze_contract ⟨s2, lv⟩ text).legal_verification) ∧
    (∀ (wf : ContractAnalysisWorkflow) (text : String),
       ((analyze_contract wf text).summary).isSome = true ∧
       (analyze_contract wf text).constitutional_analysis =
         CAField.str "Constitutional analysis temporarily unavailable") := by
  refine ⟨?_, ?_, ?_, ?_⟩
  · intro wf text f e hf he
    unfold analyze_contract
    rw [step_summarize_fail wf text initialResults f e hf he]
    constructor
    · rw [(step_comprehensive_preserves _).2.1, step_rag_eq]
      show (step_legal wf text _).summary = _
      rw [(step_legal_preserves wf text _).1]
    · refine step_comprehensive_errors_mono _ _ ?_
      refine step_rag_errors_mono _ _ _ ?_
      refine (step_legal_preserves wf text _).2.2 _ ?_
      exact List.mem_append_right _ (by simp)
  · intro wf text g e hg he
    constructor
    · unfold analyze_contract
      rw [(step_comprehensive_preserves _).2.2, step_rag_eq]
      show (step_legal wf text
        (step_summarize wf text initialResults)).legal_verification = _
      rw [step_legal_fail _ text _ g e hg he]
    · unfold analyze_contract
      refine step_comprehensive_errors_mono _ _ ?_
      refine step_rag_errors_mono _ _ _ ?_
      rw [step_legal_fail _ text _ g e hg he]
      exact List.mem_append_right _ (by simp)
  · intro text s1 s2 lv
    have key : ∀ s : Option (String → Except PyErr SummaryResult),
        (analyze_contract ⟨s, lv⟩ text).legal_verification =
          (match lv with
           | none => LVField.pyNone
           | some g =>
             match g text with
             | Except.ok v => LVField.verdict v
             | Except.error _ => LVField.errDict) := by
      intro s
      unfold analyze_contract
      rw [(step_comprehensive_preserves _).2.2, step_rag_eq]
      show (step_legal ⟨s, lv⟩ text
        (step_summarize ⟨s, lv⟩ text initialResults)).legal_verification = _
      cases hlv : lv with
      | none =>
        rw [step_legal_none _ text _ rfl, step_summarize_preserves_lv]
        rfl
      | some g =>
        cases hgt : g text with
        | ok v =>
          rw [step_legal_ok _ text _ g v rfl hgt]
          simp only [hgt]
        | error e =>
          rw [step_legal_fail _ text _ g e rfl hgt]
          simp only [hgt]
    rw [key s1, key s2]
  · intro wf text
    constructor
    · unfold analyze_contract
      rw [(step_comprehensive_preserves _).2.1, step_rag_eq]
      show ((step_legal wf text
        (step_summarize wf text initialResults)).summary).isSome = true
      rw [(step_legal_preserves wf text _).1]
      exact step_summarize_summary_isSome wf text initialResults
    · unfold analyze_contract
      rw [step_rag_eq, (step_comprehensive_preserves _).1]

/-- Witness for the C5 theorem on a workflow whose summarizer and verifier
calls both raise. -/
theorem analyze_contract_partial_failure_witness :
    failingWorkflow.summarizer = some failingSummarizer ∧
    failingSummarizer "employment contract" =
      Except.error (PyErr.serviceError "summarizer backend down") ∧
    failingWorkflow.legal_verifier = some failingVerifier ∧
    failingVerifier "employment contract" =
      Except.error (PyErr.serviceError "verifier backend down") ∧
    (analyze_contract failingWorkflow "employment contract").summary =
      some "Contract summarization temporarily unavailable" ∧
    ("Summarization failed: " ++
      PyErr.msg (PyErr.serviceError "summarizer backend down")) ∈
      (analyze_contract failingWorkflow "employment contract").errors ∧
    (analyze_contract failingWorkflow "employment contract").legal_verification =
      LVField.errDict :=
  ⟨rfl, rfl, rfl, rfl,
   (analyze_contract_partial_failure_tolerant.1 failingWorkflow
     "employment contract" failingSummarizer
     (PyErr.serviceError "summarizer backend down") rfl rfl).1,
   (analyze_contract_partial_failure_tolerant.1 failingWorkflow
     "employment contract" failingSummarizer
     (PyErr.serviceError "summarizer backend down") rfl rfl).2,
   (analyze_contract_partial_failure_tolerant.2.1 failingWorkflow
     "employment contract" failingVerifier
     (PyErr.serviceError "verifier backend down") rfl rfl).1⟩

/-- C6 counterexample: with both legal models unavailable,
`verify_legal_compliance` returns the pattern-based fallback verdict —
confidence 0.6 under the method label "Pattern-based Analysis" — not a
zero-confidence verdict flagged "verification unavailable". -/
theorem verify_legal_compliance_not_zero_confidence :
    ¬ ((verify_legal_compliance ⟨none, none⟩ "employment agreement").confidence
        = 0 ∧
       (verify_legal_compliance ⟨none, none⟩
         "employment agreement").verification_method =
        "verification unavailable") :=
  fun h => absurd h.2 (by decide)

theorem vertexOrPattern_eq_pattern (v : LegalModelVerifier) (text : String)
    (hv : ∀ p, v.vertex_model = some p →
      ∃ e, p (legalPrompt text) = Except.error e) :
    vertexOrPattern v text = pattern_based_verification text := by
  unfold vertexOrPattern
  cases hvm : v.vertex_model with
  | none => rfl
  | some p =>
    obtain ⟨e, he⟩ := hv p hvm
    simp only [he]

/-- C6 (amended): when every configured verification method fails or is
unavailable — the IndianLegalBERT path and the Vertex model path — the
method does not raise and degrades to the pattern-based fallback verdict:
method "Pattern-based Analysis", confidence 0.6 (not a zero-confidence
"verification unavailable" verdict). -/
theorem verify_legal_compliance_degrades_to_pattern
    (v : LegalModelVerifier) (contract_text : String)
    (hb : ∀ f, v.indian_legal_bert = some f →
      ∃ e, f (takeChars 512 contract_text) = Except.error e)
    (hv : ∀ p, v.vertex_model = some p →
      ∃ e, p (legalPrompt contract_text) = Except.error e) :
    verify_legal_compliance v contract_text =
      pattern_based_verification contract_text ∧
    (verify_legal_compliance v contract_text).verification_method =
      "Pattern-based Analysis" ∧
    (verify_legal_compliance v contract_text).confidence = 0.6 := by
  have h1 : verify_legal_compliance v contract_text =
      pattern_based_verification contract_text := by
    unfold verify_legal_compliance
    cases hib : v.indian_legal_bert with
    | none => exact vertexOrPattern_eq_pattern v contract_text hv
    | some f =>
      obtain ⟨e, he⟩ := hb f hib
      simp only [he]
      exact vertexOrPattern_eq_pattern v contract_text hv
  refine ⟨h1, ?_, ?_⟩ <;> rw [h1] <;> rfl

/-- Witness for the C6 amended theorem on a verifier whose two model calls
both raise. -/
theorem verify_legal_compliance_degrades_witness :
    failingLegalVerifier.indian_legal_bert = some failingBert ∧
    failingBert (takeChars 512 "employment agreement") =
      Except.error (PyErr.serviceError "bert unavailable") ∧
    failingLegalVerifier.vertex_model = some failingVertexModel ∧
    failingVertexModel (legalPrompt "employment agreement") =
      Except.error (PyErr.serviceError "vertex unavailable") ∧
    verify_legal_compliance failingLegalVerifier "employment agreement" =
      pattern_based_verification "employment agreement" ∧
    (verify_legal_compliance failingLegalVerifier
      "employment agreement").confidence = 0.6 :=
  ⟨rfl, rfl, rfl, rfl,
   (verify_legal_compliance_degrades_to_pattern failingLegalVerifier
     "employment agreement"
     (fun f h => by cases Option.some.inj h; exact ⟨_, rfl⟩)
     (fun p h => by cases Option.some.inj h; exact ⟨_, rfl⟩)).1,
   (verify_legal_compliance_degrades_to_pattern failingLegalVerifier
     "employment agreement"
     (fun f h => by cases Option.some.inj h; exact ⟨_, rfl⟩)
     (fun p h => by cases Option.some.inj h; exact ⟨_, rfl⟩)).2.2⟩

end MainWorkflow

end GenAI
